import Mathlib

/-!
Shallow embedding of `src/main.py` (a Telegram channel-forwarding script).

The script polls a list of source channels, and for each message not yet
recorded in a persistent "seen" set it optionally rewrites the text through an
external endpoint (`call_ai_bot`) and re-sends the message to a target channel.
Network effects (the rewrite HTTP call, `send_message` / `send_file`) are
modelled by explicit oracle parameters; each send attempt consumes one index of
an oracle `w : Nat → Option SendError` (`none` means the send succeeded,
`some e` means the underlying call raised the given error).
-/

namespace Ruva

/-- A Telegram document object: `message.media.document` (mime type and an
identifier standing for the payload). -/
structure Document where
  id : Nat
  mime_type : String
  deriving DecidableEq, Repr

/-- The kind of `message.media`: a `MessageMediaPhoto` (with the payload of
`message.media.photo`), a `MessageMediaDocument` (whose `.document` may be
`None`), or any other media type. -/
inductive MediaKind where
  | photo (pid : Nat)
  | document (doc : Option Document)
  | other
  deriving DecidableEq, Repr

/-- `message.media`: its kind plus the result of the
`hasattr(message.media, 'caption')` probe — `caption = some c` means the
attribute exists with value `c` (`c = none` models Python `None`),
`caption = none` means the attribute is absent. -/
structure Media where
  kind : MediaKind
  caption : Option (Option String)
  deriving DecidableEq, Repr

/-- An incoming Telegram message: its id, its `.text` (Python `None` ↦ `none`)
and its optional `.media`. -/
structure Message where
  id : Nat
  text : Option String
  media : Option Media
  deriving DecidableEq, Repr

/-- An error raised by an outbound Telegram call.  `main.py` catches all of
them uniformly, but the tags let the claims speak about rate-limit or
permission errors specifically. -/
inductive SendError where
  | rateLimited (retryAfter : Nat)
  | permissionDenied
  | other (reason : String)
  deriving DecidableEq, Repr

/-- One attempted outbound call: `bot_client.send_message(TARGET, text)`,
`bot_client.send_file(TARGET, message.media.photo, caption=…)` or
`bot_client.send_file(TARGET, message.media.document, caption=…)`. -/
inductive SendCall where
  | sendMessage (text : String)
  | sendFilePhoto (pid : Nat) (caption : Option String)
  | sendFileDoc (doc : Option Document) (caption : Option String)
  deriving DecidableEq, Repr

/-- The text payload attached to a send attempt (the message body, or the
caption of a file send). -/
def SendCall.textOf : SendCall → Option String
  | .sendMessage t => some t
  | .sendFilePhoto _ c => c
  | .sendFileDoc _ c => c

/-- An observable event of a polling run: an outbound send attempt, or a
flush of the seen-set to the backing file (`save_seen_messages`). -/
inductive Event where
  | send (c : SendCall)
  | flush (ids : List String)
  deriving DecidableEq, Repr

/-- Whether an event is a `save_seen_messages` flush. -/
def Event.isFlush : Event → Bool
  | .flush _ => true
  | _ => false

/-- Whether the first character list starts the second one. -/
def strStarts : List Char → List Char → Bool
  | [], _ => true
  | _ :: _, [] => false
  | a :: as, b :: bs => a = b && strStarts as bs

/-- Whether the needle occurs contiguously inside the haystack. -/
def strInAux (needle : List Char) : List Char → Bool
  | [] => needle.isEmpty
  | b :: bs => strStarts needle (b :: bs) || strInAux needle bs

/-- Python's `needle in hay` on strings: substring containment. -/
def strIn (needle hay : String) : Bool :=
  strInAux needle.toList hay.toList

/-- Python's `str.strip()`: remove leading and trailing whitespace.
Implemented structurally over the character list, so that it reduces inside
the kernel (the behaviour agrees with trimming whitespace from both ends). -/
def pyStrip (s : String) : String :=
  ⟨((s.toList.dropWhile Char.isWhitespace).reverse.dropWhile Char.isWhitespace).reverse⟩

/-- Python's truthiness-based `a or b` where `a : Option String` (a JSON
field that may be missing) and `b` is the next alternative: `None` and the
empty string both fall through to `b`. -/
def pyOr (a : Option String) (b : String) : String :=
  match a with
  | some s => if s = "" then b else s
  | none => b

/-- The observable behaviour of one HTTP POST to the Flowise endpoint:
either the request raises (connection error, malformed JSON body, …) or a
response arrives with a status code and the two string fields
(`text`, `data`) that `call_ai_bot` inspects (`none` = field absent). -/
inductive HttpOutcome where
  | error
  | response (statusCode : Nat) (text : Option String) (data : Option String)
  deriving DecidableEq, Repr

/-- The network world seen by one `call_ai_bot` invocation: how long the
round trip takes and what it yields if it completes. -/
structure AiWorld where
  latency : Nat
  outcome : HttpOutcome
  deriving DecidableEq, Repr

/-- `call_ai_bot` from `src/main.py`, instrumented with the number of
network calls made (second component).  `requests.post(..., timeout=45)`
raises a timeout exception when the round trip exceeds 45 time-units, which
the bare `except` maps to `None`, as it does every transport error;
`raise_for_status` raises for any status code `≥ 400`. -/
def call_ai_bot (text : String) (w : AiWorld) : Option String × Nat :=
  if pyStrip text = "" then (none, 0)
  else
    let eff := if 45 < w.latency then HttpOutcome.error else w.outcome
    match eff with
    | .error => (none, 1)
    | .response code t d =>
      if 400 ≤ code then (none, 1)
      else
        let result := pyOr t (pyOr d "")
        (if result = "" then none else some (pyStrip result), 1)

/-- The text `process_message` starts from: `message.text or ""`, replaced
by `message.media.caption or ""` when the media object has a `caption`
attribute (lines 99–101 of `main.py`). -/
def pyText (message : Message) : String :=
  let text := message.text.getD ""
  match message.media with
  | some med =>
    match med.caption with
    | some c => c.getD ""
    | none => text
  | none => text

/-- Lines 106–111 of `main.py`: `rewritten_text = call_ai_bot(text)` followed
by `if not rewritten_text: rewritten_text = text`, for a non-empty `text`.
`r` is the value returned by `call_ai_bot`; a `None` or empty result falls
back to the original `text`. -/
def pyRewrite (r : Option String) (text : String) : String :=
  match r with
  | some s => if s = "" then text else s
  | none => text

/-- The key recorded in `SEEN_MESSAGES`: `f"{channel_name}_{message.id}"`. -/
def msgKey (channel_name : String) (message : Message) : String :=
  channel_name ++ "_" ++ toString message.id

/-- The result of `process_message` before the outermost `except` handler:
`ok (forwarded?, new seen set, send attempts made)`, or
`error (seen set at raise time, send attempts made)` when an uncaught
exception propagates out of the `try` body. -/
abbrev PMOut := Except (List String × List SendCall) (Bool × List String × List SendCall)

/-- The `try: send_file ... except: if rewritten_text: send_message ...`
pattern shared by the photo, video and GIF branches of `process_message`
(lines 124–140, 150–166, 171–187).  `mk` is the media send being attempted,
`w 0` its outcome, `w 1` the outcome of the fallback `send_message` inside
the `except` block; an error raised there is not caught locally. -/
def send_with_fallback (mk : SendCall) (rewritten_text : Option String)
    (w : Nat → Option SendError) (seen : List String) (msg_key : String) : PMOut :=
  match w 0 with
  | none => .ok (true, seen.insert msg_key, [mk])
  | some _ =>
    match rewritten_text with
    | some rt =>
      match w 1 with
      | none => .ok (true, seen.insert msg_key, [mk, .sendMessage rt])
      | some _ => .error (seen, [mk, .sendMessage rt])
    | none => .ok (false, seen, [mk])

/-- The body of `process_message` (the `try` block, lines 90–200 of
`main.py`).  `ai` gives the value returned by `call_ai_bot` on each input
(its network world abstracted away — see `call_ai_bot` for that function
itself); `w n` is the outcome of the `n`-th outbound send attempt of this
call. -/
def process_message_inner (ai : String → Option String)
    (w : Nat → Option SendError) (seen : List String)
    (channel_name : String) (message : Message) : PMOut :=
  let msg_key := msgKey channel_name message
  -- Skip if already forwarded
  if seen.contains msg_key then .ok (false, seen, [])
  else
    let text := pyStrip (pyText message)
    -- Rewrite text with AI
    let rewritten_text : Option String :=
      if text = "" then none else some (pyRewrite (ai text) text)
    -- CASE 1: TEXT ONLY
    if text ≠ "" ∧ message.media = none then
      match w 0 with
      | none => .ok (true, seen.insert msg_key, [.sendMessage (rewritten_text.getD "")])
      | some _ => .error (seen, [.sendMessage (rewritten_text.getD "")])
    else
      match message.media with
      | some med =>
        match med.kind with
        -- CASE 2: PHOTO
        | .photo pid =>
          send_with_fallback (.sendFilePhoto pid rewritten_text) rewritten_text w seen msg_key
        | .document odoc =>
          let mime := (odoc.map Document.mime_type).getD ""
          -- CASE 3: VIDEO
          if strIn "video" mime then
            send_with_fallback (.sendFileDoc odoc rewritten_text) rewritten_text w seen msg_key
          -- CASE 3b: GIF / animation
          else if strIn "image/gif" mime ∨ strIn "video/mp4" mime then
            send_with_fallback (.sendFileDoc odoc rewritten_text) rewritten_text w seen msg_key
          -- Other documents - skip
          else .ok (false, seen, [])
        -- CASE 4: OTHER MEDIA
        | .other => .ok (false, seen, [])
      -- CASE 5: EMPTY MESSAGE
      | none => .ok (false, seen, [])

/-- `process_message` from `src/main.py`: the `try` body wrapped in the
outermost `except Exception` handler (lines 202–204), which logs and returns
`False`, leaving `SEEN_MESSAGES` as the raise left it.  Returns
`(forwarded?, new seen set, send attempts made)`. -/
def process_message (ai : String → Option String) (w : Nat → Option SendError)
    (seen : List String) (channel_name : String) (message : Message) :
    Bool × List String × List SendCall :=
  match process_message_inner ai w seen channel_name message with
  | .ok r => r
  | .error (s, tr) => (false, s, tr)

/-- The inner loop of `poll_channels` over one channel's fetched messages
(lines 227–232 of `main.py`): `for message in reversed(messages): if message:
process_message(...)`.  The caller passes the already-reversed list.  `base`
is the number of send attempts made so far in this run, so that each
`process_message` call reads fresh indices of the global send oracle `w`.
Returns `(messages forwarded, seen set, send attempts, new base)`. -/
def process_loop (ai : String → Option String) (w : Nat → Option SendError)
    (channel : String) : Nat → List String → List (Option Message) →
    Nat × List String × List SendCall × Nat
  | base, seen, [] => (0, seen, [], base)
  | base, seen, om :: rest =>
    match om with
    | none => process_loop ai w channel base seen rest
    | some m =>
      let r := process_message ai (fun n => w (base + n)) seen channel m
      let rest' := process_loop ai w channel (base + r.2.2.length) r.2.1 rest
      ((if r.1 then 1 else 0) + rest'.1, rest'.2.1, r.2.2 ++ rest'.2.2.1, rest'.2.2.2)

/-- The outer loop of `poll_channels` over the source channels (lines
217–236 of `main.py`).  `fetch c` models `bot_client.get_messages(c, limit=50)`:
`none` means the call raised (the `except` logs and continues with the next
channel), `some msgs` is the fetched list, newest first, possibly containing
`None` entries. -/
def poll_loop (ai : String → Option String) (w : Nat → Option SendError)
    (fetch : String → Option (List (Option Message))) :
    Nat → List String → List String → Nat × List String × List SendCall
  | _, seen, [] => (0, seen, [])
  | base, seen, c :: rest =>
    match fetch c with
    | none => poll_loop ai w fetch base seen rest
    | some msgs =>
      let r := process_loop ai w c base seen msgs.reverse
      let rest' := poll_loop ai w fetch r.2.2.2 r.2.1 rest
      (r.1 + rest'.1, rest'.2.1, r.2.2.1 ++ rest'.2.2)

/-- `poll_channels` from `src/main.py`: processes every source channel, then
calls `save_seen_messages(SEEN_MESSAGES)` exactly once (line 239).  Returns
`(total_forwarded, final seen set, observable events in order)`. -/
def poll_channels (ai : String → Option String) (w : Nat → Option SendError)
    (fetch : String → Option (List (Option Message)))
    (channels : List String) (seen : List String) :
    Nat × List String × List Event :=
  let r := poll_loop ai w fetch 0 seen channels
  (r.1, r.2.1, (r.2.2.map Event.send) ++ [Event.flush r.2.1])

/-- Whether a send attempt is a media send (a `send_file` call) as opposed
to a plain-text `send_message`. -/
def SendCall.isMediaSend : SendCall → Bool
  | .sendMessage _ => false
  | .sendFilePhoto _ _ => true
  | .sendFileDoc _ _ => true

/-- Whether `process_message` classifies the message's media as groupable,
i.e. reaches one of its three `send_file` branches: a photo, or a document
whose mime type contains `video`, `image/gif` or `video/mp4` (the branch
conditions of lines 122, 148 and 169 of `main.py`). -/
def isGroupable (message : Message) : Bool :=
  match message.media with
  | some med =>
    match med.kind with
    | .photo _ => true
    | .document odoc =>
      let mime := (odoc.map Document.mime_type).getD ""
      strIn "video" mime || strIn "image/gif" mime || strIn "video/mp4" mime
    | .other => false
  | none => false

/-- The `send_file` call `process_message` makes for a groupable message,
with a given caption (dummy `sendMessage` on non-groupable shapes, which
never reach a `send_file` branch). -/
def mediaCall (message : Message) (c : Option String) : SendCall :=
  match message.media with
  | some med =>
    match med.kind with
    | .photo pid => .sendFilePhoto pid c
    | .document odoc => .sendFileDoc odoc c
    | .other => .sendMessage ""
  | none => .sendMessage ""

/-- Test fixture: a bare photo message (no text, no caption attribute). -/
def photoMsg (i pid : Nat) : Message := ⟨i, none, some ⟨.photo pid, none⟩⟩

/-- Test fixture: an audio-file document message. -/
def audioMsg : Message := ⟨7, none, some ⟨.document (some ⟨3, "audio/mpeg"⟩), none⟩⟩

/-- Test fixture: a photo message whose text is a caption. -/
def capPhotoMsg : Message := ⟨2, some "cap", some ⟨.photo 20, none⟩⟩

/-- Test fixture: a plain text message with surrounding whitespace. -/
def textMsg : Message := ⟨9, some "  hello  ", none⟩

/-- Test fixture: a rewrite service that is always unavailable. -/
def aiNone : String → Option String := fun _ => none

/-- Test fixture: a send oracle on which every outbound call succeeds. -/
def wOk : Nat → Option SendError := fun _ => none

/-- Test fixture: a send oracle on which every outbound call raises a
rate-limit error asking for a 5-unit cooldown. -/
def wRateLimited : Nat → Option SendError := fun _ => some (.rateLimited 5)

/-- Test fixture: the first outbound call raises a generic transport error,
every later one succeeds. -/
def wFailThenOk : Nat → Option SendError :=
  fun n => if n = 0 then some (.other "boom") else none

/-- Test fixture: fetching channel `src` yields two bare photo messages
(newest first), any other channel raises. -/
def fetchTwo : String → Option (List (Option Message)) :=
  fun c => if c = "src" then some [some (photoMsg 2 20), some (photoMsg 1 10)] else none

/-- Test fixture: fetching channel `src` yields three bare photo messages
(newest first), any other channel raises. -/
def fetchThree : String → Option (List (Option Message)) :=
  fun c =>
    if c = "src" then some [some (photoMsg 3 30), some (photoMsg 2 20), some (photoMsg 1 10)]
    else none

/-- The send attempts made by the `try` body, whether or not it raised. -/
def PMOut.trace : PMOut → List SendCall
  | .ok (_, _, tr) => tr
  | .error (_, tr) => tr

/-- The value of `rewritten_text` computed at lines 103–111 of `main.py`:
`None` when the stripped text is empty (no rewrite attempted), otherwise the
rewritten text with fallback to the original. -/
def rewrittenOf (ai : String → Option String) (message : Message) : Option String :=
  let text := pyStrip (pyText message)
  if text = "" then none else some (pyRewrite (ai text) text)

/-! ## Helper lemmas -/

lemma swf_error_seen (mk : SendCall) (rt : Option String) (w : Nat → Option SendError)
    (seen : List String) (k : String) (s : List String) (tr : List SendCall)
    (h : send_with_fallback mk rt w seen k = .error (s, tr)) : s = seen := by
  unfold send_with_fallback at h
  repeat' split at h
  all_goals simp at h
  all_goals try exact h.1.symm

lemma swf_ok_cases (mk : SendCall) (rt : Option String) (w : Nat → Option SendError)
    (seen : List String) (k : String) (b : Bool) (s : List String) (tr : List SendCall)
    (h : send_with_fallback mk rt w seen k = .ok (b, s, tr)) :
    (b = true ∧ s = seen.insert k) ∨ (b = false ∧ s = seen) := by
  unfold send_with_fallback at h
  repeat' split at h
  all_goals simp at h
  all_goals obtain ⟨h1, h2, h3⟩ := h
  all_goals subst h1
  all_goals subst h2
  all_goals simp

lemma inner_error_seen (ai : String → Option String) (w : Nat → Option SendError)
    (seen : List String) (ch : String) (m : Message) (s : List String) (tr : List SendCall)
    (h : process_message_inner ai w seen ch m = .error (s, tr)) : s = seen := by
  unfold process_message_inner at h
  by_cases hc : msgKey ch m ∈ seen
  · rw [if_pos (by simpa using hc)] at h
    simp at h
  · rw [if_neg (by simpa using hc)] at h
    by_cases ht : ¬pyStrip (pyText m) = "" ∧ m.media = none
    · rw [if_pos ht] at h
      cases hw : w 0 <;> rw [hw] at h <;> simp at h
      exact h.1.symm
    · rw [if_neg ht] at h
      cases hm : m.media with
      | none => rw [hm] at h; simp at h
      | some med =>
        rw [hm] at h
        dsimp only at h
        cases hk : med.kind with
        | photo pid =>
          rw [hk] at h
          dsimp only at h
          exact swf_error_seen _ _ _ _ _ _ _ h
        | document odoc =>
          rw [hk] at h
          dsimp only at h
          by_cases h1 : strIn "video" ((odoc.map Document.mime_type).getD "") = true
          · rw [if_pos h1] at h
            exact swf_error_seen _ _ _ _ _ _ _ h
          · rw [if_neg h1] at h
            by_cases h2 : strIn "image/gif" ((odoc.map Document.mime_type).getD "") = true ∨
                strIn "video/mp4" ((odoc.map Document.mime_type).getD "") = true
            · rw [if_pos h2] at h
              exact swf_error_seen _ _ _ _ _ _ _ h
            · rw [if_neg h2] at h
              simp at h
        | other =>
          rw [hk] at h
          simp at h

lemma inner_ok_cases (ai : String → Option String) (w : Nat → Option SendError)
    (seen : List String) (ch : String) (m : Message) (b : Bool) (s : List String)
    (tr : List SendCall)
    (h : process_message_inner ai w seen ch m = .ok (b, s, tr)) :
    (b = true ∧ s = seen.insert (msgKey ch m)) ∨ (b = false ∧ s = seen) := by
  unfold process_message_inner at h
  by_cases hc : msgKey ch m ∈ seen
  · rw [if_pos (by simpa using hc)] at h
    simp at h
    obtain ⟨h1, h2, h3⟩ := h
    subst h1; subst h2; simp
  · rw [if_neg (by simpa using hc)] at h
    by_cases ht : ¬pyStrip (pyText m) = "" ∧ m.media = none
    · rw [if_pos ht] at h
      cases hw : w 0 <;> rw [hw] at h <;> simp at h
      obtain ⟨h1, h2, h3⟩ := h
      subst h1; subst h2; simp
    · rw [if_neg ht] at h
      cases hm : m.media with
      | none =>
        rw [hm] at h; simp at h
        obtain ⟨h1, h2, h3⟩ := h
        subst h1; subst h2; simp
      | some med =>
        rw [hm] at h
        dsimp only at h
        cases hk : med.kind with
        | photo pid =>
          rw [hk] at h
          dsimp only at h
          exact swf_ok_cases _ _ _ _ _ _ _ _ h
        | document odoc =>
          rw [hk] at h
          dsimp only at h
          by_cases h1 : strIn "video" ((odoc.map Document.mime_type).getD "") = true
          · rw [if_pos h1] at h
            exact swf_ok_cases _ _ _ _ _ _ _ _ h
          · rw [if_neg h1] at h
            by_cases h2 : strIn "image/gif" ((odoc.map Document.mime_type).getD "") = true ∨
                strIn "video/mp4" ((odoc.map Document.mime_type).getD "") = true
            · rw [if_pos h2] at h
              exact swf_ok_cases _ _ _ _ _ _ _ _ h
            · rw [if_neg h2] at h
              simp at h
              obtain ⟨h1, h2, h3⟩ := h
              subst h1; subst h2; simp
        | other =>
          rw [hk] at h
          simp at h
          obtain ⟨h1, h2, h3⟩ := h
          subst h1; subst h2; simp

lemma mediaCall_isMedia (m : Message) (c : Option String) (hg : isGroupable m = true) :
    (mediaCall m c).isMediaSend = true := by
  unfold isGroupable at hg
  unfold mediaCall
  cases hm : m.media with
  | none => rw [hm] at hg; simp at hg
  | some med =>
    rw [hm] at hg
    dsimp only at hg
    dsimp only
    cases hk : med.kind with
    | photo pid => rfl
    | document odoc => rfl
    | other => rw [hk] at hg; simp at hg

lemma inner_groupable (ai : String → Option String) (w : Nat → Option SendError)
    (seen : List String) (ch : String) (m : Message)
    (hg : isGroupable m = true) (hc : msgKey ch m ∉ seen) :
    process_message_inner ai w seen ch m =
      send_with_fallback (mediaCall m (rewrittenOf ai m)) (rewrittenOf ai m)
        w seen (msgKey ch m) := by
  unfold isGroupable at hg
  unfold process_message_inner mediaCall rewrittenOf
  rw [if_neg (by simpa using hc)]
  cases hm : m.media with
  | none => rw [hm] at hg; simp at hg
  | some med =>
    rw [hm] at hg
    dsimp only at hg
    rw [if_neg (by simp)]
    dsimp only
    cases hk : med.kind with
    | photo pid => rfl
    | document odoc =>
      rw [hk] at hg
      dsimp only at hg
      dsimp only
      by_cases h1 : strIn "video" ((odoc.map Document.mime_type).getD "") = true
      · rw [if_pos h1]
      · rw [if_neg h1]
        have h2 : strIn "image/gif" ((odoc.map Document.mime_type).getD "") = true ∨
            strIn "video/mp4" ((odoc.map Document.mime_type).getD "") = true := by
          rcases Bool.or_eq_true_iff.mp hg with hx | hx
          · rcases Bool.or_eq_true_iff.mp hx with hy | hy
            · exact absurd hy h1
            · exact Or.inl hy
          · exact Or.inr hx
        rw [if_pos h2]
    | other =>
      rw [hk] at hg
      simp at hg

lemma swf_trace_mem (mk : SendCall) (rt : Option String) (w : Nat → Option SendError)
    (seen : List String) (k : String) (c : SendCall)
    (hcc : c ∈ (send_with_fallback mk rt w seen k).trace) :
    c = mk ∨ ∃ x, rt = some x ∧ c = .sendMessage x := by
  unfold send_with_fallback at hcc
  cases hw0 : w 0 <;> rw [hw0] at hcc
  · dsimp only [PMOut.trace] at hcc
    simp at hcc
    exact Or.inl hcc
  · cases rt with
    | none =>
      dsimp only [PMOut.trace] at hcc
      simp at hcc
      exact Or.inl hcc
    | some x =>
      dsimp only at hcc
      cases hw1 : w 1 <;> rw [hw1] at hcc <;> dsimp only [PMOut.trace] at hcc <;>
        simp at hcc <;> rcases hcc with hcc | hcc
      · exact Or.inl hcc
      · exact Or.inr ⟨x, rfl, hcc⟩
      · exact Or.inl hcc
      · exact Or.inr ⟨x, rfl, hcc⟩

lemma process_message_trace (ai : String → Option String) (w : Nat → Option SendError)
    (seen : List String) (ch : String) (m : Message) :
    (process_message ai w seen ch m).2.2 = (process_message_inner ai w seen ch m).trace := by
  unfold process_message
  rcases hr : process_message_inner ai w seen ch m with ⟨s, tr⟩ | ⟨b, s, tr⟩ <;> rfl

lemma mediaCall_textOf (m : Message) (o : Option String) (hg : isGroupable m = true) :
    (mediaCall m o).textOf = o := by
  unfold isGroupable at hg
  unfold mediaCall
  cases hm : m.media with
  | none => rw [hm] at hg; simp at hg
  | some med =>
    rw [hm] at hg
    dsimp only at hg
    dsimp only
    cases hk : med.kind with
    | photo pid => rfl
    | document odoc => rfl
    | other => rw [hk] at hg; simp at hg

lemma inner_not_groupable (ai : String → Option String) (w : Nat → Option SendError)
    (seen : List String) (ch : String) (m : Message) (med : Media)
    (hm : m.media = some med) (hg : isGroupable m = false) :
    process_message_inner ai w seen ch m = .ok (false, seen, []) := by
  unfold process_message_inner
  by_cases hc : msgKey ch m ∈ seen
  · rw [if_pos (by simpa using hc)]
  · rw [if_neg (by simpa using hc)]
    rw [if_neg (by rw [hm]; simp), hm]
    dsimp only
    unfold isGroupable at hg
    rw [hm] at hg
    dsimp only at hg
    cases hk : med.kind with
    | photo pid => rw [hk] at hg; simp at hg
    | document odoc =>
      rw [hk] at hg
      dsimp only at hg
      simp only [Bool.or_eq_false_iff] at hg
      dsimp only
      rw [if_neg (by simp [hg.1.1]), if_neg (by simp [hg.1.2, hg.2])]
    | other => rfl

lemma inner_ai_congr (ai ai' : String → Option String) (w : Nat → Option SendError)
    (seen : List String) (ch : String) (m : Message)
    (h : pyRewrite (ai (pyStrip (pyText m))) (pyStrip (pyText m)) =
         pyRewrite (ai' (pyStrip (pyText m))) (pyStrip (pyText m))) :
    process_message_inner ai w seen ch m = process_message_inner ai' w seen ch m := by
  unfold process_message_inner
  dsimp only
  rw [h]

lemma pm_sends_text (ai : String → Option String) (w : Nat → Option SendError)
    (seen : List String) (ch : String) (m : Message)
    (htx : pyStrip (pyText m) ≠ "") :
    ∀ c ∈ (process_message ai w seen ch m).2.2,
      c.textOf = some (pyRewrite (ai (pyStrip (pyText m))) (pyStrip (pyText m))) := by
  intro c hcc
  rw [process_message_trace] at hcc
  by_cases hc : msgKey ch m ∈ seen
  · have hskip : process_message_inner ai w seen ch m = .ok (false, seen, []) := by
      unfold process_message_inner
      rw [if_pos (by simpa using hc)]
    rw [hskip] at hcc
    simp [PMOut.trace] at hcc
  · cases hm : m.media with
    | none =>
      cases hw0 : w 0 with
      | none =>
        have hred : process_message_inner ai w seen ch m =
            .ok (true, seen.insert (msgKey ch m),
              [.sendMessage (pyRewrite (ai (pyStrip (pyText m))) (pyStrip (pyText m)))]) := by
          unfold process_message_inner
          rw [if_neg (by simpa using hc), if_pos ⟨htx, hm⟩, hw0]
          dsimp only
          rw [if_neg htx]
          rfl
        rw [hred] at hcc
        dsimp only [PMOut.trace] at hcc
        simp at hcc
        subst hcc
        rfl
      | some e =>
        have hred : process_message_inner ai w seen ch m =
            .error (seen,
              [.sendMessage (pyRewrite (ai (pyStrip (pyText m))) (pyStrip (pyText m)))]) := by
          unfold process_message_inner
          rw [if_neg (by simpa using hc), if_pos ⟨htx, hm⟩, hw0]
          dsimp only
          rw [if_neg htx]
          rfl
        rw [hred] at hcc
        dsimp only [PMOut.trace] at hcc
        simp at hcc
        subst hcc
        rfl
    | some med =>
      by_cases hg : isGroupable m = true
      · have hred := inner_groupable ai w seen ch m hg hc
        have hrw : rewrittenOf ai m =
            some (pyRewrite (ai (pyStrip (pyText m))) (pyStrip (pyText m))) := by
          unfold rewrittenOf
          rw [if_neg htx]
        rw [hred] at hcc
        rcases swf_trace_mem _ _ _ _ _ _ hcc with hx | ⟨x, hx1, hx2⟩
        · subst hx
          rw [mediaCall_textOf m _ hg, hrw]
        · rw [hrw] at hx1
          injection hx1 with hx1
          subst hx1
          subst hx2
          rfl
      · have hng : isGroupable m = false := by
          cases hgg : isGroupable m
          · rfl
          · exact absurd hgg hg
        have hskip := inner_not_groupable ai w seen ch m med hm hng
        rw [hskip] at hcc
        simp [PMOut.trace] at hcc

lemma countP_send_map (l : List SendCall) :
    ((l.map Event.send).countP Event.isFlush) = 0 := by
  induction l with
  | nil => rfl
  | cons a l ih => simp [List.countP_cons, Event.isFlush, ih]

lemma pm_photo_fresh (ai : String → Option String) (w : Nat → Option SendError)
    (seen : List String) (ch : String) (i pid : Nat)
    (hc : msgKey ch (photoMsg i pid) ∉ seen) (hw0 : w 0 = none) :
    process_message ai w seen ch (photoMsg i pid) =
      (true, msgKey ch (photoMsg i pid) :: seen, [.sendFilePhoto pid none]) := by
  have hg : isGroupable (photoMsg i pid) = true := rfl
  have hred := inner_groupable ai w seen ch (photoMsg i pid) hg hc
  have hrw : rewrittenOf ai (photoMsg i pid) = none := rfl
  have hmc : mediaCall (photoMsg i pid) none = .sendFilePhoto pid none := rfl
  have hins : seen.insert (msgKey ch (photoMsg i pid)) =
      msgKey ch (photoMsg i pid) :: seen := by
    simp [List.insert, hc]
  rw [hrw] at hred
  unfold process_message
  rw [hred]
  unfold send_with_fallback
  rw [hw0]
  dsimp only
  rw [hins, hmc]

/-! ## Claims -/

/-- C3: for every item whose key is already marked processed in the state
store, processing it again performs zero outbound sends and leaves the
state store unchanged. -/
theorem C3_already_processed_idempotent (ai : String → Option String)
    (w : Nat → Option SendError) (seen : List String) (ch : String) (m : Message)
    (h : msgKey ch m ∈ seen) :
    process_message ai w seen ch m = (false, seen, []) := by
  unfold process_message process_message_inner
  rw [if_pos (by simpa using h)]

theorem C3_already_processed_idempotent_witness :
    (msgKey "src" textMsg ∈ ["src_9"]) ∧
    process_message aiNone wOk ["src_9"] "src" textMsg = (false, ["src_9"], []) :=
  ⟨by decide, C3_already_processed_idempotent aiNone wOk ["src_9"] "src" textMsg (by decide)⟩

/-- C2 counterexample: an audio-file document message is never dispatched,
but — contrary to the claim — its key is NOT recorded in the processed
store: the seen set comes back unchanged (empty). -/
theorem C2_unsupported_media_counterexample :
    process_message aiNone wOk [] "src" audioMsg = (false, [], []) ∧
    "src_7" ∉ (process_message aiNone wOk [] "src" audioMsg).2.1 := by
  constructor
  · rfl
  · decide

/-- C2 amended: an incoming item whose media is a document of an unsupported
type is never dispatched (no send call is made) and its key is NOT recorded
in the processed-state store — the seen set is returned unchanged, so the
item is re-examined (and re-skipped) on every later run. -/
theorem C2_unsupported_document_skipped (ai : String → Option String)
    (w : Nat → Option SendError) (seen : List String) (ch : String) (m : Message)
    (med : Media) (odoc : Option Document)
    (hm : m.media = some med) (hk : med.kind = .document odoc)
    (h1 : strIn "video" ((odoc.map Document.mime_type).getD "") = false)
    (h2 : strIn "image/gif" ((odoc.map Document.mime_type).getD "") = false)
    (h3 : strIn "video/mp4" ((odoc.map Document.mime_type).getD "") = false) :
    process_message ai w seen ch m = (false, seen, []) := by
  unfold process_message process_message_inner
  by_cases hc : msgKey ch m ∈ seen
  · rw [if_pos (by simpa using hc)]
  · rw [if_neg (by simpa using hc)]
    have hnotext : ¬(¬pyStrip (pyText m) = "" ∧ m.media = none) := by
      rw [hm]; simp
    rw [if_neg hnotext, hm]
    dsimp only
    rw [hk]
    dsimp only
    rw [if_neg (by simp [h1]), if_neg (by simp [h2, h3])]

theorem C2_unsupported_document_skipped_witness :
    process_message aiNone wOk [] "src" audioMsg = (false, [], []) :=
  C2_unsupported_document_skipped aiNone wOk [] "src" audioMsg
    ⟨.document (some ⟨3, "audio/mpeg"⟩), none⟩ (some ⟨3, "audio/mpeg"⟩)
    rfl rfl (by decide) (by decide) (by decide)

/-- C9: processing a single message is total at its boundary — an exception
raised inside the `try` body (the `error` result of `process_message_inner`)
never mutates the seen set, and the outermost handler catches it and
reports `False` with the store unchanged, so the caller always receives a
boolean. -/
theorem C9_process_message_total (ai : String → Option String)
    (w : Nat → Option SendError) (seen : List String) (ch : String) (m : Message)
    (s : List String) (tr : List SendCall)
    (h : process_message_inner ai w seen ch m = .error (s, tr)) :
    s = seen ∧ process_message ai w seen ch m = (false, seen, tr) := by
  have hs := inner_error_seen ai w seen ch m s tr h
  refine ⟨hs, ?_⟩
  unfold process_message
  rw [h, hs]

theorem C9_process_message_total_witness :
    process_message_inner aiNone (fun _ => some (.other "boom")) [] "src" textMsg =
      .error ([], [.sendMessage "hello"]) ∧
    process_message aiNone (fun _ => some (.other "boom")) [] "src" textMsg =
      (false, [], [.sendMessage "hello"]) :=
  ⟨rfl,
    (C9_process_message_total aiNone (fun _ => some (.other "boom")) [] "src" textMsg
      [] [.sendMessage "hello"] rfl).2⟩

/-- C10: for a message not already marked processed, a `True` result always
records exactly that message's key (prepending it to the seen set), and a
`False` result leaves the seen set unchanged; hence the result is `True`
iff the call mutated the store. -/
theorem C10_result_iff_recorded (ai : String → Option String)
    (w : Nat → Option SendError) (seen : List String) (ch : String) (m : Message)
    (h : msgKey ch m ∉ seen) :
    ((process_message ai w seen ch m).1 = true →
      (process_message ai w seen ch m).2.1 = msgKey ch m :: seen) ∧
    ((process_message ai w seen ch m).1 = false →
      (process_message ai w seen ch m).2.1 = seen) ∧
    ((process_message ai w seen ch m).1 = true ↔
      (process_message ai w seen ch m).2.1 ≠ seen) := by
  have hins : seen.insert (msgKey ch m) = msgKey ch m :: seen := by
    simp [List.insert, h]
  rcases hr : process_message_inner ai w seen ch m with ⟨s, tr⟩ | ⟨b, s, tr⟩
  · have hs := inner_error_seen ai w seen ch m s tr hr
    unfold process_message
    rw [hr]
    subst hs
    simp
  · have hc := inner_ok_cases ai w seen ch m b s tr hr
    unfold process_message
    rw [hr]
    rcases hc with ⟨hb, hsx⟩ | ⟨hb, hsx⟩
    · subst hb
      rw [hins] at hsx
      subst hsx
      simp
    · subst hb
      subst hsx
      simp

theorem C10_result_iff_recorded_witness :
    (msgKey "src" textMsg ∉ ([] : List String)) ∧
    ((process_message aiNone wOk [] "src" textMsg).1 = true →
      (process_message aiNone wOk [] "src" textMsg).2.1 = msgKey "src" textMsg :: []) :=
  ⟨by decide, (C10_result_iff_recorded aiNone wOk [] "src" textMsg (by decide)).1⟩

/-- C4 counterexample: a rate-limited media send is NOT retried — the claim
requires the same batch to be resent exactly once after the cooldown, but on
a bare photo whose only send attempt raises `RateLimited(5)` the call gives
up immediately: the trace holds a single media attempt and the item fails
(without its key being recorded). -/
theorem C4_rate_limited_no_retry_counterexample :
    process_message aiNone wRateLimited [] "src" (photoMsg 1 10) =
      (false, [], [.sendFilePhoto 10 none]) := by
  decide

/-- C4 amended: when the media send of a fresh groupable message raises a
rate-limit error, the dispatcher neither suspends nor retries the media
send — exactly one media attempt is ever made — and the outcome is success
iff a caption exists and the degraded text fallback send succeeds. -/
theorem C4_rate_limited_single_attempt (ai : String → Option String)
    (w : Nat → Option SendError) (seen : List String) (ch : String) (m : Message)
    (d : Nat) (hg : isGroupable m = true) (hc : msgKey ch m ∉ seen)
    (hw0 : w 0 = some (.rateLimited d)) :
    ((process_message ai w seen ch m).2.2.countP SendCall.isMediaSend) = 1 ∧
    ((process_message ai w seen ch m).1 = true ↔
      (pyStrip (pyText m) ≠ "" ∧ w 1 = none)) := by
  have hnone : rewrittenOf ai m = none ↔ pyStrip (pyText m) = "" := by
    unfold rewrittenOf
    by_cases htx : pyStrip (pyText m) = "" <;> simp [htx]
  have hred := inner_groupable ai w seen ch m hg hc
  cases hrw : rewrittenOf ai m with
  | none =>
    rw [hrw] at hred
    have hmc := mediaCall_isMedia m none hg
    have htx : pyStrip (pyText m) = "" := hnone.mp hrw
    unfold process_message
    rw [hred]
    unfold send_with_fallback
    rw [hw0]
    dsimp only
    constructor
    · simp [List.countP_cons, List.countP_nil, hmc]
    · simp [htx]
  | some rt =>
    rw [hrw] at hred
    have hmc := mediaCall_isMedia m (some rt) hg
    have htx : pyStrip (pyText m) ≠ "" := by
      intro hx
      rw [hnone.mpr hx] at hrw
      cases hrw
    unfold process_message
    rw [hred]
    unfold send_with_fallback
    rw [hw0]
    dsimp only
    have hsm : (SendCall.sendMessage rt).isMediaSend = false := rfl
    cases hw1 : w 1 <;> dsimp only
    · constructor
      · simp [List.countP_cons, List.countP_nil, hmc, hsm]
      · simp [htx]
    · constructor
      · simp [List.countP_cons, List.countP_nil, hmc, hsm]
      · simp [htx]

theorem C4_rate_limited_single_attempt_witness :
    ((process_message aiNone wRateLimited [] "src" capPhotoMsg).2.2.countP
      SendCall.isMediaSend) = 1 ∧
    ((process_message aiNone wRateLimited [] "src" capPhotoMsg).1 = true ↔
      (pyStrip (pyText capPhotoMsg) ≠ "" ∧ wRateLimited 1 = none)) :=
  C4_rate_limited_single_attempt aiNone wRateLimited [] "src" capPhotoMsg 5
    rfl (by decide) rfl

/-- C5 counterexample: when the media send of a captioned photo fails with a
generic transport error and the degraded text-only fallback succeeds, the
call reports success (`True`) and records the key — not the `Failed`
outcome the claim requires regardless of the fallback's result. -/
theorem C5_reports_success_counterexample :
    process_message aiNone wFailThenOk [] "src" capPhotoMsg =
      (true, ["src_2"], [.sendFilePhoto 20 (some "cap"), .sendMessage "cap"]) := by
  decide

/-- C5 amended: when the media send of a fresh groupable message with a
non-empty caption raises any transport error, a degraded text-only post is
attempted as fallback, and the reported outcome follows the fallback: a
successful fallback yields `True` with the key recorded, a failing fallback
propagates to the outer handler, which yields `False` with the store
unchanged. -/
theorem C5_degraded_text_fallback (ai : String → Option String)
    (w : Nat → Option SendError) (seen : List String) (ch : String) (m : Message)
    (e : SendError) (hg : isGroupable m = true) (hc : msgKey ch m ∉ seen)
    (htx : pyStrip (pyText m) ≠ "") (hw0 : w 0 = some e) :
    process_message ai w seen ch m =
      ((w 1).isNone,
        if (w 1).isNone then msgKey ch m :: seen else seen,
        [mediaCall m (rewrittenOf ai m),
         .sendMessage (pyRewrite (ai (pyStrip (pyText m))) (pyStrip (pyText m)))]) := by
  have hins : seen.insert (msgKey ch m) = msgKey ch m :: seen := by
    simp [List.insert, hc]
  have hred := inner_groupable ai w seen ch m hg hc
  have hrw : rewrittenOf ai m =
      some (pyRewrite (ai (pyStrip (pyText m))) (pyStrip (pyText m))) := by
    unfold rewrittenOf
    rw [if_neg htx]
  rw [hrw] at hred
  unfold process_message
  rw [hred, hrw]
  unfold send_with_fallback
  rw [hw0]
  dsimp only
  cases hw1 : w 1 <;> dsimp only
  · simp [hins]
  · simp

theorem C5_degraded_text_fallback_witness :
    process_message aiNone wFailThenOk [] "src" capPhotoMsg =
      ((wFailThenOk 1).isNone,
        if (wFailThenOk 1).isNone then msgKey "src" capPhotoMsg :: [] else [],
        [mediaCall capPhotoMsg (rewrittenOf aiNone capPhotoMsg),
         .sendMessage (pyRewrite (aiNone (pyStrip (pyText capPhotoMsg)))
           (pyStrip (pyText capPhotoMsg)))]) :=
  C5_degraded_text_fallback aiNone wFailThenOk [] "src" capPhotoMsg (.other "boom")
    rfl (by decide) (by decide) rfl

/-- C6: when the rewrite call is unavailable (returns `None`) for a message
with non-empty stripped text, every dispatched send carries exactly the text
that was given to the rewrite call, and the unavailability is never fatal:
the whole processing behaves identically to a run with an identity
rewriter. -/
theorem C6_unavailable_uses_original (ai : String → Option String)
    (w : Nat → Option SendError) (seen : List String) (ch : String) (m : Message)
    (htx : pyStrip (pyText m) ≠ "")
    (hai : ai (pyStrip (pyText m)) = none) :
    (∀ c ∈ (process_message ai w seen ch m).2.2,
      c.textOf = some (pyStrip (pyText m))) ∧
    process_message ai w seen ch m = process_message (fun s => some s) w seen ch m := by
  have hpr : pyRewrite (ai (pyStrip (pyText m))) (pyStrip (pyText m)) =
      pyStrip (pyText m) := by
    rw [hai]
    rfl
  constructor
  · intro c hcc
    have hx := pm_sends_text ai w seen ch m htx c hcc
    rw [hpr] at hx
    exact hx
  · unfold process_message
    rw [inner_ai_congr ai (fun s => some s) w seen ch m (by rw [hpr]; simp [pyRewrite])]

theorem C6_unavailable_uses_original_witness :
    (∀ c ∈ (process_message aiNone wOk [] "src" textMsg).2.2,
      c.textOf = some (pyStrip (pyText textMsg))) ∧
    process_message aiNone wOk [] "src" textMsg =
      process_message (fun s => some s) wOk [] "src" textMsg :=
  C6_unavailable_uses_original aiNone wOk [] "src" textMsg (by decide) rfl

/-- C7: the rewrite client short-circuits to `Unavailable` without a network
call on input that is empty after stripping; it enforces the 45-time-unit
round-trip bound (any longer round trip is a timeout, mapped to
`Unavailable`); and every transport error, non-success (≥ 400) status, or
empty response body also maps to `Unavailable` — the function is total, so
nothing ever raises past its boundary. -/
theorem C7_rewrite_client_contract (text : String) (w : AiWorld) :
    (pyStrip text = "" → call_ai_bot text w = (none, 0)) ∧
    (45 < w.latency → (call_ai_bot text w).1 = none) ∧
    (w.outcome = .error → (call_ai_bot text w).1 = none) ∧
    (∀ code t d, w.outcome = .response code t d → 400 ≤ code →
      (call_ai_bot text w).1 = none) ∧
    (∀ code t d, w.outcome = .response code t d → pyOr t (pyOr d "") = "" →
      (call_ai_bot text w).1 = none) := by
  refine ⟨fun h => ?_, fun h => ?_, fun h => ?_,
    fun code t d ho hge => ?_, fun code t d ho hb => ?_⟩
  · unfold call_ai_bot
    rw [if_pos h]
  · unfold call_ai_bot
    by_cases hs : pyStrip text = ""
    · rw [if_pos hs]
    · rw [if_neg hs]
      dsimp only
      rw [if_pos h]
  · unfold call_ai_bot
    by_cases hs : pyStrip text = ""
    · rw [if_pos hs]
    · rw [if_neg hs]
      dsimp only
      by_cases hl : 45 < w.latency
      · rw [if_pos hl]
      · rw [if_neg hl, h]
  · unfold call_ai_bot
    by_cases hs : pyStrip text = ""
    · rw [if_pos hs]
    · rw [if_neg hs]
      dsimp only
      by_cases hl : 45 < w.latency
      · rw [if_pos hl]
      · rw [if_neg hl, ho]
        dsimp only
        rw [if_pos hge]
  · unfold call_ai_bot
    by_cases hs : pyStrip text = ""
    · rw [if_pos hs]
    · rw [if_neg hs]
      dsimp only
      by_cases hl : 45 < w.latency
      · rw [if_pos hl]
      · rw [if_neg hl, ho]
        dsimp only
        by_cases hge : 400 ≤ code
        · rw [if_pos hge]
        · rw [if_neg hge]
          dsimp only
          rw [if_pos hb]

theorem C7_rewrite_client_contract_witness :
    call_ai_bot "  " ⟨1, .error⟩ = (none, 0) ∧
    (call_ai_bot "hi" ⟨46, .response 200 (some "X") none⟩).1 = none ∧
    (call_ai_bot "hi" ⟨1, .error⟩).1 = none ∧
    (call_ai_bot "hi" ⟨1, .response 404 (some "X") none⟩).1 = none ∧
    (call_ai_bot "hi" ⟨1, .response 200 (some "") none⟩).1 = none :=
  ⟨(C7_rewrite_client_contract "  " ⟨1, .error⟩).1 (by decide),
   (C7_rewrite_client_contract "hi" ⟨46, .response 200 (some "X") none⟩).2.1 (by decide),
   (C7_rewrite_client_contract "hi" ⟨1, .error⟩).2.2.1 rfl,
   (C7_rewrite_client_contract "hi" ⟨1, .response 404 (some "X") none⟩).2.2.2.1
     404 (some "X") none rfl (by decide),
   (C7_rewrite_client_contract "hi" ⟨1, .response 200 (some "") none⟩).2.2.2.2
     200 (some "") none rfl (by decide)⟩

/-- C8 counterexample: a run that successfully dispatches two messages emits
exactly ONE flush of the state store, at the end of the polling pass — not a
flush after each successful dispatch as the claim requires. -/
theorem C8_single_flush_counterexample :
    (poll_channels aiNone wOk fetchTwo ["src"] []).1 = 2 ∧
    ((poll_channels aiNone wOk fetchTwo ["src"] []).2.2.countP Event.isFlush) = 1 := by
  decide

/-- C8 amended: on every run, the processed-state store is flushed to
durable storage exactly once, after the full polling pass over all channels
(the flush is the last event and carries the final seen set); there is no
per-dispatch flush and no separate shutdown flush. -/
theorem C8_flush_once_at_end (ai : String → Option String)
    (w : Nat → Option SendError) (fetch : String → Option (List (Option Message)))
    (channels : List String) (seen : List String) :
    ((poll_channels ai w fetch channels seen).2.2.countP Event.isFlush) = 1 ∧
    (poll_channels ai w fetch channels seen).2.2.getLast? =
      some (.flush (poll_channels ai w fetch channels seen).2.1) := by
  unfold poll_channels
  dsimp only
  constructor
  · rw [List.countP_append, countP_send_map]
    simp [List.countP_cons, Event.isFlush]
  · rw [List.getLast?_concat]

/-- C1 counterexample: three fresh photo messages from the same channel are
dispatched as three separate one-item posts — one outgoing post per item —
not as one batch, since the code has no aggregation or debounce at all. -/
theorem C1_three_posts_counterexample :
    poll_channels aiNone wOk fetchThree ["src"] [] =
      (3, ["src_3", "src_2", "src_1"],
        [.send (.sendFilePhoto 10 none), .send (.sendFilePhoto 20 none),
         .send (.sendFilePhoto 30 none), .flush ["src_3", "src_2", "src_1"]]) := by
  decide

/-- C1 amended: a burst of fresh groupable media items from one channel
produces exactly one outgoing post PER ITEM, in arrival (oldest-first)
order — `n` items yield `n` forwarded messages and `n` individual
`send_file` calls; no batch is ever formed. -/
theorem C1_one_post_per_item (ai : String → Option String)
    (w : Nat → Option SendError) (ch : String) (ids : List (Nat × Nat)) :
    ∀ (base : Nat) (seen : List String),
    (∀ n, w n = none) →
    ((ids.map (fun p => msgKey ch (photoMsg p.1 p.2))).Nodup) →
    (∀ p ∈ ids, msgKey ch (photoMsg p.1 p.2) ∉ seen) →
    (process_loop ai w ch base seen (ids.map (fun p => some (photoMsg p.1 p.2)))).1 =
      ids.length ∧
    (process_loop ai w ch base seen (ids.map (fun p => some (photoMsg p.1 p.2)))).2.2.1 =
      ids.map (fun p => .sendFilePhoto p.2 none) := by
  induction ids with
  | nil =>
    intro base seen hw hnd hfresh
    exact ⟨rfl, rfl⟩
  | cons p rest ih =>
    intro base seen hw hnd hfresh
    rw [List.map_cons, List.nodup_cons] at hnd
    obtain ⟨hp, hnd'⟩ := hnd
    have hc0 : msgKey ch (photoMsg p.1 p.2) ∉ seen :=
      hfresh p (List.mem_cons_self p rest)
    have hpm : process_message ai (fun n => w (base + n)) seen ch (photoMsg p.1 p.2) =
        (true, msgKey ch (photoMsg p.1 p.2) :: seen, [.sendFilePhoto p.2 none]) :=
      pm_photo_fresh ai (fun n => w (base + n)) seen ch p.1 p.2 hc0 (hw (base + 0))
    have hfresh' : ∀ q ∈ rest,
        msgKey ch (photoMsg q.1 q.2) ∉ msgKey ch (photoMsg p.1 p.2) :: seen := by
      intro q hq
      rw [List.mem_cons]
      rintro (hx | hx)
      · exact hp (hx ▸ List.mem_map_of_mem (fun r => msgKey ch (photoMsg r.1 r.2)) hq)
      · exact hfresh q (List.mem_cons_of_mem p hq) hx
    have hrest := ih (base + 1) (msgKey ch (photoMsg p.1 p.2) :: seen) hw hnd' hfresh'
    rw [List.map_cons]
    simp only [process_loop]
    rw [hpm]
    dsimp only
    rw [show ([SendCall.sendFilePhoto p.2 none] : List SendCall).length = 1 from rfl]
    constructor
    · rw [hrest.1]
      simp [List.length_cons]
      omega
    · rw [hrest.2]
      simp

theorem C1_one_post_per_item_witness :
    ((process_loop aiNone wOk "src" 0 []
        (([((1 : Nat), (10 : Nat)), (2, 20), (3, 30)]).map
          (fun p => some (photoMsg p.1 p.2)))).1 = 3) ∧
    ((process_loop aiNone wOk "src" 0 []
        (([((1 : Nat), (10 : Nat)), (2, 20), (3, 30)]).map
          (fun p => some (photoMsg p.1 p.2)))).2.2.1 =
      ([((1 : Nat), (10 : Nat)), (2, 20), (3, 30)]).map
        (fun p => .sendFilePhoto p.2 none)) :=
  C1_one_post_per_item aiNone wOk "src" [(1, 10), (2, 20), (3, 30)] 0 []
    (fun _ => rfl) (by decide) (by decide)

end Ruva
